import Mathlib

/-!
# llmcache core: shallow embedding and verification

This file embeds the core of the llmcache repository in Lean 4 and proves
properties of the embedded definitions:

* `src/core/storage.js` — the JSON file backend (`JSONStorage`), the backend
  factory `createStorage` and the resolver `detectBackend`;
* `src/core/cache.js` — the cache facade `set`/`get` (here `cacheSet`/`cacheGet`);
* `src/license/limits.js` — `canAddEntry`, `checkResponseSize`;
* `src/core/similarity.js` — `cosineSimilarity` and the ranking pipeline of
  `findSimilar`.

Modelling conventions: JavaScript numbers are `Int` (or `ℚ` where fractional
values arise), timestamps are abstract integers, the persisted JSON document is
an explicit state record threaded through each operation, and objects used as
string-keyed maps are association lists in insertion order (matching the
iteration order of string-keyed JavaScript objects).  The "storage not
initialized" early returns (`load()` giving `null`) are outside the states
modelled here: every claim quantifies over initialized stores.
-/

namespace LLMCache

/-- A cache entry: the record stored per hash key (the CacheEntry schema built
in `cache.js` `set` and persisted by `storage.js`).  `created` and `expires`
are ISO timestamps in the source, modelled as integers. -/
structure Entry where
  prompt : String
  response : String
  model : String
  created : Int
  hits : Int
  tokens : Int
  expires : Option Int := none
deriving Repr, DecidableEq

/-- The `stats` object of the JSON index document.  `costSaved` maps a model
name to a saved amount; its values are never read by the operations modelled
here. -/
structure Stats where
  totalEntries : Int
  totalHits : Int
  totalSaved : Int
  costSaved : List (String × Int)
deriving Repr, DecidableEq

/-- The persisted JSON index document (`index.json`): `entries` is the
hash-keyed map of entries, in insertion order; `stats` the aggregate counters.
The constant `meta` block is omitted: no modelled operation reads it. -/
structure JState where
  entries : List (String × Entry)
  stats : Stats
deriving Repr, DecidableEq

/-- `data.entries[hash]`: first binding of the key, if any. -/
def lookupEntry : List (String × Entry) → String → Option Entry
  | [], _ => none
  | (k, v) :: rest, h => if k = h then some v else lookupEntry rest h

/-- `data.entries[hash] = entry`: replace the binding in place if the key is
present, otherwise append it (JavaScript object assignment keeps an existing
key's position and appends a new string key). -/
def setEntry : List (String × Entry) → String → Entry → List (String × Entry)
  | [], h, e => [(h, e)]
  | (k, v) :: rest, h, e =>
    if k = h then (h, e) :: rest else (k, v) :: setEntry rest h e

/-- `delete data.entries[hash]`: drop the binding of the key. -/
def removeEntry : List (String × Entry) → String → List (String × Entry)
  | [], _ => []
  | (k, v) :: rest, h => if k = h then rest else (k, v) :: removeEntry rest h

/-- The document written by `JSONStorage.init()`: no entries, zeroed stats. -/
def initialData : JState :=
  { entries := [], stats := { totalEntries := 0, totalHits := 0, totalSaved := 0, costSaved := [] } }

namespace JSONStorage

/-- Result of `JSONStorage.set`. -/
structure SetResult where
  success : Bool
  isNew : Bool
deriving Repr, DecidableEq

/-- `JSONStorage.get(hash)` (storage.js:68-72). -/
def get (st : JState) (h : String) : Option Entry :=
  lookupEntry st.entries h

/-- `JSONStorage.set(hash, entry)` (storage.js:74-87): upsert; `isNew` iff the
key was absent, in which case `totalEntries` is incremented. -/
def set (st : JState) (h : String) (e : Entry) : SetResult × JState :=
  let isNew := (lookupEntry st.entries h).isNone
  let entries := setEntry st.entries h e
  let stats :=
    if isNew then { st.stats with totalEntries := st.stats.totalEntries + 1 } else st.stats
  (⟨true, isNew⟩, { entries := entries, stats := stats })

/-- `JSONStorage.delete(hash)` (storage.js:89-100). -/
def delete (st : JState) (h : String) : Bool × JState :=
  match lookupEntry st.entries h with
  | some _ =>
    (true, { entries := removeEntry st.entries h,
             stats := { st.stats with totalEntries := st.stats.totalEntries - 1 } })
  | none => (false, st)

/-- Result of `JSONStorage.clear`. -/
structure ClearResult where
  success : Bool
  removed : Nat
deriving Repr, DecidableEq

/-- `JSONStorage.clear(options)` (storage.js:134-160).  `olderThan` is the
already-parsed day count (`parseInt` of the `"Nd"` string); `now` the current
time; the cutoff is `now` minus that many days, in the same abstract time
units.  With a cutoff, entries strictly older are deleted and `totalEntries`
is decremented by the number removed; without one, everything is deleted and
the stats are reset to zero. -/
def clear (st : JState) (olderThan : Option Int) (now : Int) : ClearResult × JState :=
  match olderThan with
  | some days =>
    let cutoff := now - days
    let removedCount := (st.entries.filter (fun p => decide (p.2.created < cutoff))).length
    (⟨true, removedCount⟩,
      { entries := st.entries.filter (fun p => ! decide (p.2.created < cutoff)),
        stats := { st.stats with totalEntries := st.stats.totalEntries - removedCount } })
  | none =>
    (⟨true, st.entries.length⟩,
      { entries := [],
        stats := { totalEntries := 0, totalHits := 0, totalSaved := 0, costSaved := [] } })

/-- `JSONStorage.exportData()` (storage.js:162-164): the whole document. -/
def exportData (st : JState) : JState := st

/-- Result of `JSONStorage.importData`. -/
structure ImportResult where
  success : Bool
  imported : Nat
deriving Repr, DecidableEq

/-- One iteration of the `importData` loop (storage.js:172-181), acting on the
accumulated state and imported counter. -/
def importStep (strategy : String) (acc : JState × Nat) (kv : String × Entry) :
    JState × Nat :=
  if strategy = "skip-existing" ∧ (lookupEntry acc.1.entries kv.1).isSome then acc
  else if strategy = "replace" ∨ (lookupEntry acc.1.entries kv.1).isNone then
    ({ acc.1 with entries := setEntry acc.1.entries kv.1 kv.2 }, acc.2 + 1)
  else if strategy = "merge" ∧ (lookupEntry acc.1.entries kv.1).isNone then
    ({ acc.1 with entries := setEntry acc.1.entries kv.1 kv.2 }, acc.2 + 1)
  else acc

/-- `JSONStorage.importData(importedData, strategy)` (storage.js:166-187): fold
the per-key step over the snapshot's entries, then recompute `totalEntries`
as the number of keys now present. -/
def importData (st : JState) (imp : List (String × Entry)) (strategy : String) :
    ImportResult × JState :=
  let res := imp.foldl (importStep strategy) (st, 0)
  (⟨true, res.2⟩,
    { res.1 with stats := { res.1.stats with totalEntries := (res.1.entries.length : Int) } })

end JSONStorage

/-- Concrete backend classes (`storage.js` exports `JSONStorage` and
`SQLiteStorage`). -/
inductive StorageKind where
  | json
  | sqlite
deriving Repr, DecidableEq

/-- `createStorage(cachePath, backend)` (storage.js:392-403): the `switch` on
the backend identifier.  `'sqlite'` and `'redis'` are matched explicitly;
`'redis'` throws (`Except.error`); every other identifier — `'json'` or
anything unrecognized — hits the `default` arm and yields the JSON backend. -/
def createStorage (backend : String) : Except String StorageKind :=
  if backend = "sqlite" then Except.ok StorageKind.sqlite
  else if backend = "redis" then Except.error "Redis backend not yet implemented"
  else Except.ok StorageKind.json

/-- `detectBackend(cachePath)` (storage.js:410-415), over the file-system facts
it reads: `dbExists` is the presence of `cache.db`, `indexExists` the presence
of `index.json` (which the source never consults). -/
def detectBackend (dbExists : Bool) (indexExists : Bool) : String :=
  if dbExists then "sqlite" else "json"

/-- Modelled from the spec: the resolver contract of §4.4/§6 of the spec
(`detectBackend` as the spec describes it) — relational marker wins, else the
flat-document marker means JSON, else the directory is uninitialized.  Used
only to compare the source's `detectBackend` against the spec's words. -/
def detectBackendSpec (dbExists : Bool) (indexExists : Bool) : String :=
  if dbExists then "sqlite" else if indexExists then "json" else "uninitialized"

/-- `FREE_LIMITS.maxEntries` from the `license/constants` module (staged
inside `src/src/index.js`): the FREE-tier entry ceiling, 50. -/
def FREE_LIMITS_maxEntries : Int := 50

/-- `FREE_LIMITS.maxResponseSize` from the `license/constants` module (staged
inside `src/src/index.js`): the FREE-tier response-size ceiling,
`10 * 1024` bytes. -/
def FREE_LIMITS_maxResponseSize : Int := 10 * 1024

/-- `canAddEntry(currentCount)` (license/limits.js): allowed iff PRO or the
current entry count is below the free ceiling. -/
def canAddEntry (isPro : Bool) (currentCount : Int) : Bool :=
  if isPro then true
  else if currentCount ≥ FREE_LIMITS_maxEntries then false
  else true

/-- `checkResponseSize(size)` (license/limits.js): allowed iff PRO or the size
does not exceed the free response-size ceiling. -/
def checkResponseSize (isPro : Bool) (size : Int) : Bool :=
  if isPro then true
  else if size > FREE_LIMITS_maxResponseSize then false
  else true

/-- Result of the cache facade `set` (cache.js:107-162). -/
structure CacheSetResult where
  success : Bool
  limitExceeded : Bool
  hash : String
  isNew : Bool
  tokens : Int
deriving Repr, DecidableEq

/-- The `tokens` field of cache.js:134: `options.tokens ||
Math.ceil(response.length / 4)` — a supplied nonzero count wins, otherwise
(absent or the falsy 0) the quarter-length estimate. -/
def jsTokens (tokensOpt : Option Int) (response : String) : Int :=
  match tokensOpt with
  | some t => if t = 0 then (((response.length + 3) / 4 : Nat) : Int) else t
  | none => (((response.length + 3) / 4 : Nat) : Int)

/-- `cache.js` `set(prompt, response, model, options)` (cache.js:107-162) over
an initialized JSON backend.  `hp` is the hash function `hashPrompt` (SHA-256
truncated to 12 hex digits in the source, abstracted here as an arbitrary
function of prompt and model); `isPro` the license gate; `now` the clock;
`tokensOpt` is `options.tokens` and `ttlMs` the already-parsed TTL in
milliseconds (`parseTTL(options.ttl)`, `none` when absent or invalid).
Order of checks follows the source: entry-count ceiling, then response-size
ceiling (each returning `limitExceeded` without touching storage), then the
upsert. -/
def cacheSet (hp : String → String → String) (isPro : Bool) (now : Int)
    (prompt response model : String) (tokensOpt : Option Int) (ttlMs : Option Int)
    (st : JState) : CacheSetResult × JState :=
  if canAddEntry isPro st.stats.totalEntries = false then
    (⟨false, true, "", false, 0⟩, st)
  else if checkResponseSize isPro (response.utf8ByteSize : Int) = false then
    (⟨false, true, "", false, 0⟩, st)
  else
    let hash := hp prompt model
    let tokens : Int := jsTokens tokensOpt response
    let baseEntry : Entry :=
      { prompt := prompt, response := response, model := model,
        created := now, hits := 0, tokens := tokens, expires := none }
    let entry :=
      match ttlMs with
      | some ms =>
        if isPro = true ∧ ms ≠ 0 then { baseEntry with expires := some (now + ms) }
        else baseEntry
      | none => baseEntry
    let res := JSONStorage.set st hash entry
    (⟨true, false, hash, res.1.isNew, tokens⟩, res.2)

/-- The value returned by a successful cache facade `get` (cache.js:197-203). -/
structure CacheGetResult where
  response : String
  model : String
  hits : Int
  created : Int
  tokens : Int
deriving Repr, DecidableEq

/-- The expiry test of cache.js:181: present and strictly in the past. -/
def isExpired (e : Entry) (now : Int) : Bool :=
  match e.expires with
  | some exp => decide (exp < now)
  | none => false

/-- `cache.js` `get(prompt, model, options)` (cache.js:171-204) over an
initialized JSON backend: look up by hash; a missing entry yields `none`; an
expired entry is deleted and yields `none`; otherwise the entry's `hits` is
incremented and written back, the aggregate `totalHits`/`totalSaved` stats are
bumped, and the response is returned. -/
def cacheGet (hp : String → String → String) (now : Int) (prompt model : String)
    (st : JState) : Option CacheGetResult × JState :=
  let hash := hp prompt model
  match JSONStorage.get st hash with
  | none => (none, st)
  | some entry =>
    if isExpired entry now then
      (none, (JSONStorage.delete st hash).2)
    else
      let entry2 := { entry with hits := entry.hits + 1 }
      let st2 := (JSONStorage.set st hash entry2).2
      let st3 :=
        { st2 with stats :=
          { st2.stats with
            totalHits := st2.stats.totalHits + 1,
            totalSaved := st2.stats.totalSaved + (entry.response.utf8ByteSize : Int) } }
      (some ⟨entry.response, entry.model, entry2.hits, entry.created, entry.tokens⟩, st3)

/-! ## Similarity engine (`src/core/similarity.js`) -/

/-- A sparse TF-IDF vector: a string-keyed object with rational weights. -/
def SparseVec : Type := List (String × ℚ)

/-- `v[key] || 0`. -/
def getVal (v : SparseVec) (k : String) : ℚ :=
  match v with
  | [] => 0
  | (k1, q) :: rest => if k1 = k then q else getVal rest k

/-- `new Set([...Object.keys(v1), ...Object.keys(v2)])` (similarity.js:97) —
the union of the two key sets.  The deduplication order differs from the
JavaScript `Set` insertion order, which is immaterial: the loop below only
accumulates commutative sums over this list. -/
def keysUnion (v1 v2 : SparseVec) : List String :=
  (v1.map Prod.fst ++ v2.map Prod.fst).dedup

/-- The `dotProduct` accumulator of the `cosineSimilarity` loop
(similarity.js:99-105). -/
def dotProduct (v1 v2 : SparseVec) : ℚ :=
  ((keysUnion v1 v2).map (fun k => getVal v1 k * getVal v2 k)).sum

/-- The `mag1` accumulator (sum of squares of `v1`'s values over the key
union) before the square root is taken. -/
def magSqFst (v1 v2 : SparseVec) : ℚ :=
  ((keysUnion v1 v2).map (fun k => getVal v1 k * getVal v1 k)).sum

/-- The `mag2` accumulator (sum of squares of `v2`'s values over the key
union) before the square root is taken. -/
def magSqSnd (v1 v2 : SparseVec) : ℚ :=
  ((keysUnion v1 v2).map (fun k => getVal v2 k * getVal v2 k)).sum

/-- `cosineSimilarity(v1, v2)` (similarity.js:92-113).  `Math.sqrt` is not
rational, so it is abstracted as the parameter `sqrtFn`; the theorems about
this function assume only `sqrtFn x = 0 ↔ x = 0`, which holds of `Math.sqrt`
on its non-negative inputs here.  The guard and the division mirror the
source: return exactly 0 if either magnitude is 0, else divide. -/
def cosineSimilarity (sqrtFn : ℚ → ℚ) (v1 v2 : SparseVec) : ℚ :=
  let mag1 := sqrtFn (magSqFst v1 v2)
  let mag2 := sqrtFn (magSqSnd v1 v2)
  if mag1 = 0 ∨ mag2 = 0 then 0
  else dotProduct v1 v2 / (mag1 * mag2)

/-- The entry fields that `findSimilar` copies into each result
(similarity.js:155-162), minus the similarity score. -/
structure SimEntry where
  hash : String
  prompt : String
  response : String
  model : String
  hits : Int
  created : Int
deriving Repr, DecidableEq

/-- One element of `findSimilar`'s `results` array: the copied entry plus the
(rounded, see `round2`) similarity. -/
structure ScoredResult where
  entry : SimEntry
  similarity : ℚ
deriving Repr, DecidableEq

/-- `Math.round(similarity * 100) / 100` (similarity.js:162).  JavaScript's
`Math.round` rounds half toward positive infinity, i.e. `⌊x + 1/2⌋`. -/
def round2 (q : ℚ) : ℚ := ((⌊q * 100 + 1 / 2⌋ : Int) : ℚ) / 100

/-- The comparator `(a, b) => b.similarity - a.similarity` of
similarity.js:168, as the order it sorts into: non-increasing similarity. -/
def simDescOrder (a b : ScoredResult) : Prop :=
  b.similarity ≤ a.similarity

instance : DecidableRel simDescOrder :=
  fun a b => inferInstanceAs (Decidable (b.similarity ≤ a.similarity))

instance : IsTotal ScoredResult simDescOrder :=
  ⟨fun a b => le_total b.similarity a.similarity⟩

instance : IsTrans ScoredResult simDescOrder :=
  ⟨fun _ _ _ h1 h2 => le_trans h2 h1⟩

/-- `findSimilar(query, storage, {threshold, limit})` (similarity.js:122-174),
as its ranking pipeline.  The floating-point TF-IDF cosine score computed for
each entry (lines 133-152) is abstracted as the rational score paired with the
entry in `scored`; everything after the score is computed follows the source:
the PRO gate returns empty results; entries whose **unrounded** score meets the
threshold are kept and stored with the **rounded** score (line 162); the kept
results are sorted by JavaScript's stable sort on the stored (rounded)
similarity, descending (line 168: `insertionSort simDescOrder` is exactly that
stable descending sort); the first component is the sorted list truncated to
`lim`, the second the pre-truncation count (`total`).  The early return for an
empty entry list (line 130) coincides with the general pipeline on `[]`. -/
def findSimilar (isPro : Bool) (scored : List (SimEntry × ℚ))
    (threshold : ℚ) (lim : Nat) : List ScoredResult × Nat :=
  if isPro = false then ([], 0)
  else
    let results := (scored.filter (fun p => decide (threshold ≤ p.2))).map
      (fun p => ⟨p.1, round2 p.2⟩)
    let sorted := List.insertionSort simDescOrder results
    (sorted.take lim, results.length)

/-! ## Mutation sequences over the JSON backend (for the entry-count
invariant) -/

/-- One mutating operation of the JSON backend: `set`, `delete`, `clear`
(with or without an `olderThan` cutoff) or `importData`. -/
inductive StoreOp where
  | setE (h : String) (e : Entry)
  | deleteE (h : String)
  | clearE (olderThan : Option Int) (now : Int)
  | importE (imp : List (String × Entry)) (strategy : String)
deriving Repr

/-- Apply one mutating operation to the persisted state. -/
def applyOp (st : JState) : StoreOp → JState
  | StoreOp.setE h e => (JSONStorage.set st h e).2
  | StoreOp.deleteE h => (JSONStorage.delete st h).2
  | StoreOp.clearE o now => (JSONStorage.clear st o now).2
  | StoreOp.importE imp s => (JSONStorage.importData st imp s).2

/-- Run a sequence of mutating operations from a state. -/
def runOps (st : JState) (ops : List StoreOp) : JState :=
  ops.foldl applyOp st

/-- The JSON backend's entry-count invariant: the persisted
`stats.totalEntries` equals the number of keys in the persisted entries map. -/
def entriesCountInv (st : JState) : Prop :=
  st.stats.totalEntries = (st.entries.length : Int)

/-! ## Association-list lemmas -/

theorem lookup_setEntry_self (es : List (String × Entry)) (h : String) (e : Entry) :
    lookupEntry (setEntry es h e) h = some e := by
  induction es with
  | nil => simp [setEntry, lookupEntry]
  | cons kv rest ih =>
    by_cases hk : kv.1 = h
    · simp [setEntry, hk, lookupEntry]
    · simpa [setEntry, hk, lookupEntry] using ih

theorem lookup_setEntry_ne (es : List (String × Entry)) (h k : String) (e : Entry)
    (hne : k ≠ h) : lookupEntry (setEntry es h e) k = lookupEntry es k := by
  have hne' : h ≠ k := fun hh => hne hh.symm
  induction es with
  | nil => simp [setEntry, lookupEntry, hne']
  | cons kv rest ih =>
    by_cases hk : kv.1 = h
    · have hkk : kv.1 ≠ k := by rw [hk]; exact hne'
      simp [setEntry, hk, lookupEntry, hne', hkk]
    · by_cases hk2 : kv.1 = k
      · simp [setEntry, hk, lookupEntry, hk2, hne]
      · simpa [setEntry, hk, lookupEntry, hk2] using ih

theorem length_setEntry_none (es : List (String × Entry)) (h : String) (e : Entry)
    (habs : lookupEntry es h = none) :
    (setEntry es h e).length = es.length + 1 := by
  induction es with
  | nil => simp [setEntry]
  | cons kv rest ih =>
    by_cases hk : kv.1 = h
    · simp [lookupEntry, hk] at habs
    · simp only [lookupEntry, hk, if_neg] at habs
      simp [setEntry, hk, ih habs]

theorem length_setEntry_some (es : List (String × Entry)) (h : String) (e : Entry)
    (hpres : (lookupEntry es h).isSome) :
    (setEntry es h e).length = es.length := by
  induction es with
  | nil => simp [lookupEntry] at hpres
  | cons kv rest ih =>
    by_cases hk : kv.1 = h
    · simp [setEntry, hk]
    · simp only [lookupEntry, hk, if_neg] at hpres
      simp [setEntry, hk, ih hpres]

theorem length_removeEntry_some (es : List (String × Entry)) (h : String)
    (hpres : (lookupEntry es h).isSome) :
    (removeEntry es h).length + 1 = es.length := by
  induction es with
  | nil => simp [lookupEntry] at hpres
  | cons kv rest ih =>
    by_cases hk : kv.1 = h
    · simp [removeEntry, hk]
    · simp only [lookupEntry, hk, if_neg] at hpres
      simp [removeEntry, hk, ih hpres]

theorem length_filter_split {α : Type} (q : α → Bool) (l : List α) :
    (l.filter q).length + (l.filter (fun a => ! q a)).length = l.length := by
  induction l with
  | nil => simp
  | cons a l ih =>
    cases hq : q a <;> simp [List.filter_cons, hq, ← ih] <;> omega

/-! ## C2: `JSONStorage.set` insert/update semantics -/

/-- C2. For every initialized JSON backend state and hash: `set(h, entry)`
returns `isNew = false` on an existing hash, updating the entry in place and
leaving `totalEntries` unchanged; on a new hash it returns `isNew = true` and
`totalEntries` increases by exactly 1. -/
theorem jsonSet_insert_update (st : JState) (h : String) (e : Entry) :
    ((lookupEntry st.entries h).isSome →
      (JSONStorage.set st h e).1.isNew = false ∧
      (JSONStorage.set st h e).2.stats.totalEntries = st.stats.totalEntries ∧
      lookupEntry (JSONStorage.set st h e).2.entries h = some e) ∧
    (lookupEntry st.entries h = none →
      (JSONStorage.set st h e).1.isNew = true ∧
      (JSONStorage.set st h e).2.stats.totalEntries = st.stats.totalEntries + 1 ∧
      lookupEntry (JSONStorage.set st h e).2.entries h = some e) := by
  constructor
  · intro hpres
    have hnone : (lookupEntry st.entries h).isNone = false := by
      cases hcase : lookupEntry st.entries h with
      | none => rw [hcase] at hpres; simp at hpres
      | some v => simp
    simp [JSONStorage.set, hnone, lookup_setEntry_self]
  · intro habs
    simp [JSONStorage.set, habs, lookup_setEntry_self]

/-- Witness for `jsonSet_insert_update`: on the empty initialized store with a
sample entry, the insert branch fires with `isNew = true` and the counter goes
from 0 to 1. -/
theorem jsonSet_insert_update_witness :
    (JSONStorage.set initialData "abc"
        { prompt := "p", response := "r", model := "m",
          created := 0, hits := 0, tokens := 1, expires := none }).1.isNew = true ∧
    (JSONStorage.set initialData "abc"
        { prompt := "p", response := "r", model := "m",
          created := 0, hits := 0, tokens := 1, expires := none }).2.stats.totalEntries =
      initialData.stats.totalEntries + 1 ∧
    lookupEntry (JSONStorage.set initialData "abc"
        { prompt := "p", response := "r", model := "m",
          created := 0, hits := 0, tokens := 1, expires := none }).2.entries "abc" =
      some { prompt := "p", response := "r", model := "m",
             created := 0, hits := 0, tokens := 1, expires := none } :=
  (jsonSet_insert_update initialData "abc" _).2 (by simp [initialData, lookupEntry])

/-! ## C10: the entry-count invariant of the JSON backend -/

theorem applyOp_preserves_inv (st : JState) (op : StoreOp)
    (hinv : entriesCountInv st) : entriesCountInv (applyOp st op) := by
  cases op with
  | setE h e =>
    cases hcase : lookupEntry st.entries h with
    | none =>
      have hlen := length_setEntry_none st.entries h e hcase
      simp only [applyOp, JSONStorage.set, hcase, Option.isNone_none, if_pos, entriesCountInv,
        hlen] at *
      push_cast
      omega
    | some v =>
      have hlen := length_setEntry_some st.entries h e (by rw [hcase]; rfl)
      simp only [applyOp, JSONStorage.set, hcase, Option.isNone_some, Bool.false_eq_true,
        if_neg, entriesCountInv, hlen] at *
      exact hinv
  | deleteE h =>
    cases hcase : lookupEntry st.entries h with
    | none => simpa [applyOp, JSONStorage.delete, hcase, entriesCountInv] using hinv
    | some v =>
      have hlen := length_removeEntry_some st.entries h (by rw [hcase]; rfl)
      simp only [applyOp, JSONStorage.delete, hcase, entriesCountInv] at *
      omega
  | clearE o now =>
    cases o with
    | none => simp [applyOp, JSONStorage.clear, entriesCountInv]
    | some days =>
      have hlen := length_filter_split
        (fun p : String × Entry => decide (p.2.created < now - days)) st.entries
      simp only [applyOp, JSONStorage.clear, entriesCountInv] at *
      omega
  | importE imp s => simp [applyOp, JSONStorage.importData, entriesCountInv]

/-- C10. Starting from the freshly initialized JSON store, every sequence of
the mutating operations `set`, `delete`, `clear` and `importData` preserves
the invariant: the persisted `stats.totalEntries` equals the number of keys in
the persisted entries map. -/
theorem jsonBackend_totalEntries_inv (ops : List StoreOp) :
    entriesCountInv (runOps initialData ops) := by
  have hgen : ∀ st, entriesCountInv st → entriesCountInv (runOps st ops) := by
    induction ops with
    | nil => intro st h; exact h
    | cons op rest ih =>
      intro st h
      have hstep : runOps st (op :: rest) = runOps (applyOp st op) rest := by
        simp [runOps]
      rw [hstep]
      exact ih _ (applyOp_preserves_inv st op h)
  exact hgen initialData (by simp [initialData, entriesCountInv])

/-! ## C6: `clear` semantics -/

/-- C6 (amended). `clear()` with no filter removes every entry, resets
`totalEntries` to 0 (indeed all aggregate stats to zero) and reports the prior
entry count as `removed`.  `clear({olderThan: N})` keeps exactly the entries
whose `created` is not strictly older than `now − N`, reports as `removed`
exactly the number of strictly older entries, and decrements `totalEntries` by
that count — but it does **not** rescale the other aggregate stats:
`totalHits` and `totalSaved` are left unchanged. -/
theorem jsonClear_semantics (st : JState) (now days : Int) :
    ((JSONStorage.clear st none now).1.removed = st.entries.length ∧
     (JSONStorage.clear st none now).2.entries = [] ∧
     (JSONStorage.clear st none now).2.stats.totalEntries = 0) ∧
    ((∀ (k : String) (e : Entry),
        (k, e) ∈ (JSONStorage.clear st (some days) now).2.entries ↔
          ((k, e) ∈ st.entries ∧ ¬ e.created < now - days)) ∧
     (JSONStorage.clear st (some days) now).1.removed =
       (st.entries.filter (fun p => decide (p.2.created < now - days))).length ∧
     (JSONStorage.clear st (some days) now).2.stats.totalEntries =
       st.stats.totalEntries - (JSONStorage.clear st (some days) now).1.removed ∧
     (JSONStorage.clear st (some days) now).2.stats.totalHits = st.stats.totalHits ∧
     (JSONStorage.clear st (some days) now).2.stats.totalSaved = st.stats.totalSaved) := by
  refine ⟨⟨rfl, rfl, rfl⟩, ?_, rfl, rfl, rfl, rfl⟩
  intro k e
  simp [JSONStorage.clear, List.mem_filter]

/-- A sample entry created at time 0 whose retrievals are recorded in the
aggregate stats. -/
def sampleOldEntry : Entry :=
  { prompt := "p", response := "r", model := "m",
    created := 0, hits := 5, tokens := 1, expires := none }

/-- A store holding only `sampleOldEntry`, with 5 recorded hits and 100 saved
bytes in the aggregate stats. -/
def hitsState : JState :=
  { entries := [("h1", sampleOldEntry)],
    stats := { totalEntries := 1, totalHits := 5, totalSaved := 100, costSaved := [] } }

/-- Counterexample to C6 as stated: clearing with a cutoff that removes every
entry (1 removed out of 1) leaves `totalHits` at 5 — a proportional reset of
the aggregate stats would leave 0 of the cumulative hit count when 0% of the
entries survive. -/
theorem jsonClear_not_proportional_cex :
    (JSONStorage.clear hitsState (some 1) 10).1.removed = 1 ∧
    (JSONStorage.clear hitsState (some 1) 10).2.entries = [] ∧
    (JSONStorage.clear hitsState (some 1) 10).2.stats.totalEntries = 0 ∧
    (JSONStorage.clear hitsState (some 1) 10).2.stats.totalHits = 5 ∧
    (JSONStorage.clear hitsState (some 1) 10).2.stats.totalSaved = 100 ∧
    (JSONStorage.clear hitsState (some 1) 10).2.stats.totalHits ≠ 0 := by
  decide

/-! ## C7: unimplemented backend identifiers and malformed import strategies -/

theorem importStep_unknown_strategy (s : String) (h1 : s ≠ "skip-existing")
    (h2 : s ≠ "replace") (acc : JState × Nat) (kv : String × Entry) :
    JSONStorage.importStep s acc kv = JSONStorage.importStep "merge" acc kv := by
  by_cases hn : (lookupEntry acc.1.entries kv.1).isNone
  · simp [JSONStorage.importStep, h1, h2, hn]
  · simp [JSONStorage.importStep, h1, h2, hn]

/-- C7 (amended). `createStorage` throws only for the recognized-but-
unimplemented `'redis'` identifier; every other unrecognized identifier falls
through the `switch`'s `default` arm to the JSON backend, silently.  An
unrecognized `importData` strategy is not rejected either: it behaves exactly
like `'merge'` (insert missing keys, never overwrite, count insertions). -/
theorem createStorage_importStrategy_amended :
    (∀ b : String, b ≠ "sqlite" → b ≠ "redis" →
        createStorage b = Except.ok StorageKind.json) ∧
    createStorage "redis" = Except.error "Redis backend not yet implemented" ∧
    (∀ (st : JState) (imp : List (String × Entry)) (s : String),
        s ≠ "skip-existing" → s ≠ "replace" →
        JSONStorage.importData st imp s = JSONStorage.importData st imp "merge") := by
  refine ⟨fun b h1 h2 => by simp [createStorage, h1, h2], by simp [createStorage], ?_⟩
  intro st imp s h1 h2
  unfold JSONStorage.importData
  have hfold : ∀ acc : JState × Nat,
      imp.foldl (JSONStorage.importStep s) acc =
        imp.foldl (JSONStorage.importStep "merge") acc := by
    induction imp with
    | nil => intro acc; rfl
    | cons kv rest ih =>
      intro acc
      simp only [List.foldl_cons, importStep_unknown_strategy s h1 h2, ih]
  rw [hfold]

/-- Witness for `createStorage_importStrategy_amended` at the concrete
identifier `"memory"` and strategy `"unknown-strategy"`. -/
theorem createStorage_importStrategy_amended_witness :
    createStorage "memory" = Except.ok StorageKind.json ∧
    JSONStorage.importData initialData [("k1", sampleOldEntry)] "unknown-strategy" =
      JSONStorage.importData initialData [("k1", sampleOldEntry)] "merge" :=
  ⟨createStorage_importStrategy_amended.1 "memory" (by decide) (by decide),
   createStorage_importStrategy_amended.2.2 initialData [("k1", sampleOldEntry)]
     "unknown-strategy" (by decide) (by decide)⟩

/-- Counterexample to C7 as stated: the unimplemented identifier
`"memcached"` does not raise a construction-time error — it silently yields
the JSON backend; and the malformed strategy `"totally-bogus"` is not fatal —
the import proceeds and imports the incoming key. -/
theorem createStorage_fallback_cex :
    createStorage "memcached" = Except.ok StorageKind.json ∧
    (JSONStorage.importData initialData [("k1", sampleOldEntry)] "totally-bogus").1.imported
        = 1 ∧
    lookupEntry
        (JSONStorage.importData initialData [("k1", sampleOldEntry)] "totally-bogus").2.entries
        "k1" = some sampleOldEntry := by
  refine ⟨by simp [createStorage], by decide, by decide⟩

/-! ## C8: backend detection -/

/-- C8 (amended). `detectBackend` returns the SQL backend exactly when the
relational marker `cache.db` is present (so that marker does take precedence),
and the JSON backend in every other case — whether or not the flat-document
marker `index.json` exists.  It never reports "uninitialized"; a missing store
is only discovered later, when loading the index fails.  When at least one
marker is present, the source agrees with the spec's resolver contract. -/
theorem detectBackend_amended (db idx : Bool) :
    detectBackend true idx = "sqlite" ∧
    detectBackend false idx = "json" ∧
    (db = true ∨ idx = true → detectBackend db idx = detectBackendSpec db idx) ∧
    detectBackend db idx ≠ "uninitialized" := by
  refine ⟨rfl, rfl, ?_, ?_⟩
  · intro h
    cases db with
    | true => rfl
    | false =>
      have hidx : idx = true := by
        rcases h with h | h
        · exact absurd h (by simp)
        · exact h
      rw [hidx]
      rfl
  · cases db <;> simp [detectBackend]

/-- Witness for `detectBackend_amended`: with both markers present the source
and the spec's contract agree on `"sqlite"`, and with only the flat-document
marker the result is not "uninitialized". -/
theorem detectBackend_amended_witness :
    detectBackend true true = detectBackendSpec true true ∧
    detectBackend false true ≠ "uninitialized" :=
  ⟨(detectBackend_amended true true).2.2.1 (Or.inl rfl),
   (detectBackend_amended false true).2.2.2⟩

/-- Counterexample to C8 as stated: with neither marker file present the
resolver still answers `"json"`, not "uninitialized" — it diverges from the
spec's resolver contract exactly there. -/
theorem detectBackend_uninitialized_cex :
    detectBackend false false = "json" ∧
    detectBackendSpec false false = "uninitialized" ∧
    detectBackend false false ≠ detectBackendSpec false false := by
  decide

/-! ## C5: `importData` with `merge` / `skip-existing` -/

theorem importFold_preserves_existing (strategy : String)
    (hs : strategy = "merge" ∨ strategy = "skip-existing") :
    ∀ (imp : List (String × Entry)) (st : JState) (n : Nat) (k : String),
      (lookupEntry st.entries k).isSome →
      lookupEntry (imp.foldl (JSONStorage.importStep strategy) (st, n)).1.entries k =
        lookupEntry st.entries k := by
  intro imp
  induction imp with
  | nil => intro st n k _; rfl
  | cons kv rest ih =>
    intro st n k hk
    cases hl : lookupEntry st.entries kv.1 with
    | some v =>
      have hstep : JSONStorage.importStep strategy (st, n) kv = (st, n) := by
        rcases hs with h | h <;>
          simp [JSONStorage.importStep, h, hl]
      rw [List.foldl_cons, hstep]
      exact ih st n k hk
    | none =>
      have hne : k ≠ kv.1 := by
        intro he
        rw [he, hl] at hk
        simp at hk
      have hstep : JSONStorage.importStep strategy (st, n) kv =
          ({ st with entries := setEntry st.entries kv.1 kv.2 }, n + 1) := by
        rcases hs with h | h <;>
          simp [JSONStorage.importStep, h, hl]
      rw [List.foldl_cons, hstep]
      have hk2 : (lookupEntry (setEntry st.entries kv.1 kv.2) k).isSome := by
        rw [lookup_setEntry_ne st.entries kv.1 k kv.2 hne]
        exact hk
      rw [ih _ (n + 1) k hk2, lookup_setEntry_ne st.entries kv.1 k kv.2 hne]

theorem importFold_count (strategy : String)
    (hs : strategy = "merge" ∨ strategy = "skip-existing") :
    ∀ (imp : List (String × Entry)) (st : JState) (n : Nat),
      (imp.map Prod.fst).Nodup →
      (imp.foldl (JSONStorage.importStep strategy) (st, n)).2 =
        n + (imp.filter (fun kv => (lookupEntry st.entries kv.1).isNone)).length := by
  intro imp
  induction imp with
  | nil => intro st n _; simp
  | cons kv rest ih =>
    intro st n hnd
    have hmap : (kv.1 :: rest.map Prod.fst).Nodup := by simpa using hnd
    have hnd1 : kv.1 ∉ rest.map Prod.fst := (List.nodup_cons.mp hmap).1
    have hnd2 : (rest.map Prod.fst).Nodup := by
      simpa using (List.nodup_cons.mp hmap).2
    cases hl : lookupEntry st.entries kv.1 with
    | some v =>
      have hstep : JSONStorage.importStep strategy (st, n) kv = (st, n) := by
        rcases hs with h | h <;> simp [JSONStorage.importStep, h, hl]
      rw [List.foldl_cons, hstep, ih st n hnd2]
      simp [List.filter_cons, hl]
    | none =>
      have hstep : JSONStorage.importStep strategy (st, n) kv =
          ({ st with entries := setEntry st.entries kv.1 kv.2 }, n + 1) := by
        rcases hs with h | h <;> simp [JSONStorage.importStep, h, hl]
      rw [List.foldl_cons, hstep,
        ih { st with entries := setEntry st.entries kv.1 kv.2 } (n + 1) hnd2]
      have hfilter :
          rest.filter
              (fun kv' => (lookupEntry (setEntry st.entries kv.1 kv.2) kv'.1).isNone) =
            rest.filter (fun kv' => (lookupEntry st.entries kv'.1).isNone) := by
        apply List.filter_congr
        intro kv' hmem
        have hne : kv'.1 ≠ kv.1 := by
          intro he
          exact hnd1 (he ▸ List.mem_map_of_mem Prod.fst hmem)
        rw [lookup_setEntry_ne st.entries kv.1 kv'.1 kv.2 hne]
      rw [hfilter]
      simp [List.filter_cons, hl]
      omega

/-- C5. Under the `merge` and `skip-existing` import strategies: a key already
present locally is never overwritten (its stored entry, hence its
prompt/response, is unchanged by the import); the `imported` count is exactly
the number of incoming keys that were absent locally (skipped keys are
excluded); consequently importing `exportData(S)` with `merge` into the empty
initialized backend imports exactly the number of entries of `S`. -/
theorem importData_merge_skip (strategy : String)
    (hs : strategy = "merge" ∨ strategy = "skip-existing") :
    (∀ (st : JState) (imp : List (String × Entry)) (k : String),
        (lookupEntry st.entries k).isSome →
        lookupEntry (JSONStorage.importData st imp strategy).2.entries k =
          lookupEntry st.entries k) ∧
    (∀ (st : JState) (imp : List (String × Entry)),
        (imp.map Prod.fst).Nodup →
        (JSONStorage.importData st imp strategy).1.imported =
          (imp.filter (fun kv => (lookupEntry st.entries kv.1).isNone)).length) ∧
    (∀ S : JState, ((JSONStorage.exportData S).entries.map Prod.fst).Nodup →
        (JSONStorage.importData initialData (JSONStorage.exportData S).entries
            "merge").1.imported =
          (JSONStorage.exportData S).entries.length) := by
  refine ⟨?_, ?_, ?_⟩
  · intro st imp k hk
    simpa [JSONStorage.importData] using
      importFold_preserves_existing strategy hs imp st 0 k hk
  · intro st imp hnd
    simpa [JSONStorage.importData] using importFold_count strategy hs imp st 0 hnd
  · intro S hnd
    have h := importFold_count "merge" (Or.inl rfl) S.entries initialData 0 hnd
    have hall : S.entries.filter
        (fun kv => (lookupEntry initialData.entries kv.1).isNone) = S.entries := by
      apply List.filter_eq_self.mpr
      intro kv _
      simp [initialData, lookupEntry]
    have hproj :
        (JSONStorage.importData initialData (JSONStorage.exportData S).entries
            "merge").1.imported =
          (S.entries.foldl (JSONStorage.importStep "merge") (initialData, 0)).2 := rfl
    rw [hproj, h, Nat.zero_add, hall]
    rfl

/-- Witness for `importData_merge_skip` with `strategy = "merge"`: importing
into a store that already holds `"h1"` leaves that entry alone, and the
round-trip of `hitsState`'s export into the empty store imports its one
entry. -/
theorem importData_merge_skip_witness :
    lookupEntry (JSONStorage.importData hitsState [("h1",
        { prompt := "new", response := "new", model := "m",
          created := 9, hits := 0, tokens := 1, expires := none })] "merge").2.entries "h1" =
      lookupEntry hitsState.entries "h1" ∧
    (JSONStorage.importData initialData (JSONStorage.exportData hitsState).entries
        "merge").1.imported = (JSONStorage.exportData hitsState).entries.length :=
  ⟨(importData_merge_skip "merge" (Or.inl rfl)).1 hitsState _ "h1" (by decide),
   (importData_merge_skip "merge" (Or.inl rfl)).2.2 hitsState (by decide)⟩

/-! ## C9: cosine similarity zero guard -/

/-- C9. `cosineSimilarity` returns exactly 0 whenever either vector's L2 norm
is 0 (the sum of squares of its values is 0 — `sqrtFn` maps exactly 0 to 0,
as `Math.sqrt` does on the non-negative sums that arise here); in particular
two empty vectors give 0.  And no NaN can arise: whenever the result is not
produced by the zero guard, the denominator `mag1 * mag2` of the division is
nonzero. -/
theorem cosineSimilarity_zero_guard (sqrtFn : ℚ → ℚ)
    (hsqrt : ∀ x : ℚ, sqrtFn x = 0 ↔ x = 0) (v1 v2 : SparseVec) :
    ((magSqFst v1 v2 = 0 ∨ magSqSnd v1 v2 = 0) → cosineSimilarity sqrtFn v1 v2 = 0) ∧
    cosineSimilarity sqrtFn [] [] = 0 ∧
    (cosineSimilarity sqrtFn v1 v2 = 0 ∨
      sqrtFn (magSqFst v1 v2) * sqrtFn (magSqSnd v1 v2) ≠ 0) := by
  refine ⟨?_, ?_, ?_⟩
  · rintro (h | h)
    · have hz : sqrtFn (magSqFst v1 v2) = 0 := (hsqrt _).mpr h
      simp [cosineSimilarity, hz]
    · have hz : sqrtFn (magSqSnd v1 v2) = 0 := (hsqrt _).mpr h
      simp [cosineSimilarity, hz]
  · have hz : magSqFst ([] : SparseVec) ([] : SparseVec) = 0 := by
      simp [magSqFst, keysUnion]
    have hz' : sqrtFn (magSqFst ([] : SparseVec) ([] : SparseVec)) = 0 := (hsqrt _).mpr hz
    simp [cosineSimilarity, hz']
  · by_cases h1 : sqrtFn (magSqFst v1 v2) = 0
    · exact Or.inl (by simp [cosineSimilarity, h1])
    · by_cases h2 : sqrtFn (magSqSnd v1 v2) = 0
      · exact Or.inl (by simp [cosineSimilarity, h2])
      · exact Or.inr (mul_ne_zero h1 h2)

/-- Witness for `cosineSimilarity_zero_guard` with the identity standing in
for the square root (it maps exactly 0 to 0): two concrete empty vectors give
similarity 0. -/
theorem cosineSimilarity_zero_guard_witness :
    cosineSimilarity (fun q => q) [] [] = 0 :=
  (cosineSimilarity_zero_guard (fun q => q) (fun _ => Iff.rfl) [] []).2.1

/-! ## C3: the `findSimilar` ranking pipeline -/

/-- C3 (amended). `findSimilar` returns only entries whose **unrounded**
similarity meets or exceeds the threshold, with the rounded (2-decimal) value
as the presented similarity; the results are sorted non-increasing by the
**rounded** similarity — JavaScript's stable sort ties on equal rounded
values back to original entry order — and the result count never exceeds the
limit. -/
theorem findSimilar_ranking (isPro : Bool) (scored : List (SimEntry × ℚ))
    (threshold : ℚ) (lim : Nat) :
    (findSimilar isPro scored threshold lim).1.length ≤ lim ∧
    List.Pairwise simDescOrder (findSimilar isPro scored threshold lim).1 ∧
    (∀ r ∈ (findSimilar isPro scored threshold lim).1,
        ∃ p ∈ scored, threshold ≤ p.2 ∧ r = ⟨p.1, round2 p.2⟩) := by
  by_cases hp : isPro = false
  · simp [findSimilar, hp]
  · have hunf : findSimilar isPro scored threshold lim =
        ((List.insertionSort simDescOrder
            ((scored.filter (fun p => decide (threshold ≤ p.2))).map
              (fun p => ⟨p.1, round2 p.2⟩))).take lim,
         ((scored.filter (fun p => decide (threshold ≤ p.2))).map
              (fun p => (⟨p.1, round2 p.2⟩ : ScoredResult))).length) := by
      simp [findSimilar, hp]
    refine ⟨?_, ?_, ?_⟩
    · rw [hunf]
      simpa using (List.length_take lim _).trans_le (min_le_left _ _)
    · rw [hunf]
      exact (List.sorted_insertionSort simDescOrder _).sublist (List.take_sublist _ _)
    · intro r hr
      rw [hunf] at hr
      have hr2 : r ∈ List.insertionSort simDescOrder
          ((scored.filter (fun p => decide (threshold ≤ p.2))).map
            (fun p => (⟨p.1, round2 p.2⟩ : ScoredResult))) :=
        List.take_subset _ _ hr
      rw [List.mem_insertionSort] at hr2
      obtain ⟨q, hq, hrq⟩ := List.mem_map.mp hr2
      obtain ⟨hqmem, hqthr⟩ := List.mem_filter.mp hq
      exact ⟨q, hqmem, of_decide_eq_true hqthr, hrq.symm⟩

/-- A sample entry returned by the similarity search. -/
def simA : SimEntry := ⟨"A", "pa", "ra", "m", 0, 0⟩

/-- A second sample entry returned by the similarity search. -/
def simB : SimEntry := ⟨"B", "pb", "rb", "m", 0, 0⟩

/-- Witness for `findSimilar_ranking`: at a concrete scored list, the first
returned result does come from a candidate meeting the threshold, carrying
the rounded similarity. -/
theorem findSimilar_ranking_witness :
    ∃ p ∈ [(simA, (449 : ℚ)/1000), (simB, (451 : ℚ)/1000)],
      (3 : ℚ)/10 ≤ p.2 ∧
      (⟨simA, (45 : ℚ)/100⟩ : ScoredResult) = ⟨p.1, round2 p.2⟩ :=
  (findSimilar_ranking true [(simA, 449/1000), (simB, 451/1000)]
      (3/10) 10).2.2 ⟨simA, 45/100⟩ (by
    have h1 : ((3:ℚ)/10 ≤ 449/1000) := by norm_num
    have h2 : ((3:ℚ)/10 ≤ 451/1000) := by norm_num
    have hf1 : round2 ((449 : ℚ)/1000) = 45/100 := by
      rw [round2]
      norm_num [Int.floor_eq_iff]
    have hf2 : round2 ((451 : ℚ)/1000) = 45/100 := by
      rw [round2]
      norm_num [Int.floor_eq_iff]
    simp only [findSimilar, List.filter_cons, decide_eq_true h1, decide_eq_true h2,
      List.insertionSort, List.orderedInsert, hf1, hf2, List.filter_nil, List.map_cons,
      List.map_nil, Bool.false_eq_true, if_false, reduceIte]
    split
    · simp_all
    · split <;> simp)

/-- Counterexample to C3 as stated: the sort comparator reads the similarity
field **after** it was rounded to 2 decimals (similarity.js stores the rounded
value at line 162 and sorts at line 168), so two scores that differ before
rounding but agree after it (0.449 and 0.451 both round to 0.45) compare as a
tie and stay in original entry order.  The entry with unrounded similarity
0.449 is returned **before** the entry with 0.451 — the output is not sorted
by the unrounded values, which would require the opposite order. -/
theorem findSimilar_rounded_sort_cex :
    (findSimilar true [(simA, 449/1000), (simB, 451/1000)]
        (3/10) 10).1.map ScoredResult.entry = [simA, simB] ∧
    ((449 : ℚ)/1000 < 451/1000) := by
  constructor
  · have h1 : ((3:ℚ)/10 ≤ 449/1000) := by norm_num
    have h2 : ((3:ℚ)/10 ≤ 451/1000) := by norm_num
    have hf1 : round2 ((449 : ℚ)/1000) = 45/100 := by
      rw [round2]
      norm_num [Int.floor_eq_iff]
    have hf2 : round2 ((451 : ℚ)/1000) = 45/100 := by
      rw [round2]
      norm_num [Int.floor_eq_iff]
    have hle : simDescOrder ⟨simA, round2 ((449 : ℚ)/1000)⟩
        ⟨simB, round2 ((451 : ℚ)/1000)⟩ := by
      simp [simDescOrder, hf1, hf2]
    simp [findSimilar, List.filter_cons, decide_eq_true h1, decide_eq_true h2,
      List.insertionSort, List.orderedInsert, hle]
  · norm_num

/-! ## C1, C4: the cache facade -/

theorem cacheGet_hit (hp : String → String → String) (now : Int)
    (prompt model : String) (st : JState) (e : Entry)
    (hfound : JSONStorage.get st (hp prompt model) = some e)
    (hexp : isExpired e now = false) :
    (cacheGet hp now prompt model st).1 =
      some ⟨e.response, e.model, e.hits + 1, e.created, e.tokens⟩ ∧
    JSONStorage.get (cacheGet hp now prompt model st).2 (hp prompt model) =
      some { e with hits := e.hits + 1 } := by
  have hfound' : lookupEntry st.entries (hp prompt model) = some e := hfound
  constructor
  · simp [cacheGet, JSONStorage.get, hfound', hexp]
  · simp [cacheGet, JSONStorage.get, JSONStorage.set, hfound', hexp, lookup_setEntry_self]

/-- C1. Within the free-tier limits (entry count below the ceiling, response
within the size limit): `set(prompt, response, model)` succeeds, and a
subsequent `get(prompt, model)` returns the response just set.  Moreover
every successful `get` increments the stored entry's `hits` counter by
exactly 1 (and reports the incremented count). -/
theorem cacheSetGet_roundtrip :
    (∀ (hp : String → String → String) (now now2 : Int)
        (prompt response model : String) (tokensOpt ttlMs : Option Int) (st : JState),
      st.stats.totalEntries < FREE_LIMITS_maxEntries →
      (response.utf8ByteSize : Int) ≤ FREE_LIMITS_maxResponseSize →
      (cacheSet hp false now prompt response model tokensOpt ttlMs st).1.success = true ∧
      ∃ g, (cacheGet hp now2 prompt model
          (cacheSet hp false now prompt response model tokensOpt ttlMs st).2).1 = some g ∧
        g.response = response) ∧
    (∀ (hp : String → String → String) (now : Int) (prompt model : String)
        (st : JState) (g : CacheGetResult),
      (cacheGet hp now prompt model st).1 = some g →
      ∃ e, JSONStorage.get st (hp prompt model) = some e ∧
        JSONStorage.get (cacheGet hp now prompt model st).2 (hp prompt model) =
          some { e with hits := e.hits + 1 } ∧
        g.hits = e.hits + 1 ∧ g.response = e.response) := by
  constructor
  · intro hp now now2 prompt response model tokensOpt ttlMs st hcount hsize
    have h1 : canAddEntry false st.stats.totalEntries = true := by
      simp [canAddEntry, not_le.mpr hcount]
    have h2 : checkResponseSize false (response.utf8ByteSize : Int) = true := by
      simp [checkResponseSize, not_lt.mpr hsize]
    have hfound : JSONStorage.get
        (cacheSet hp false now prompt response model tokensOpt ttlMs st).2
        (hp prompt model) =
          some { prompt := prompt, response := response, model := model,
                 created := now, hits := 0, tokens := jsTokens tokensOpt response,
                 expires := none } := by
      cases ttlMs <;>
        simp [cacheSet, h1, h2, JSONStorage.get, JSONStorage.set, lookup_setEntry_self]
    refine ⟨by cases ttlMs <;> simp [cacheSet, h1, h2], ?_⟩
    refine ⟨⟨response, model, 0 + 1, now, jsTokens tokensOpt response⟩, ?_, rfl⟩
    exact (cacheGet_hit hp now2 prompt model _ _ hfound (by simp [isExpired])).1
  · intro hp now prompt model st g hget
    cases hcase : JSONStorage.get st (hp prompt model) with
    | none => simp [cacheGet, hcase] at hget
    | some e =>
      cases hexp : isExpired e now with
      | true => simp [cacheGet, hcase, hexp] at hget
      | false =>
        have hhit := cacheGet_hit hp now prompt model st e hcase hexp
        rw [hhit.1] at hget
        have hg : g = ⟨e.response, e.model, e.hits + 1, e.created, e.tokens⟩ :=
          (Option.some_inj.mp hget).symm
        exact ⟨e, rfl, hhit.2, by rw [hg], by rw [hg]⟩

/-- Witness for `cacheSetGet_roundtrip`: on the empty initialized store (0
entries, below the ceiling of 50; a 1-byte response, below 10 KB), setting
then getting `("p", "m")` returns the stored response `"r"`; and the
second conjunct applied to that concrete successful get exhibits the stored
hit count going from 0 to 1. -/
theorem cacheSetGet_roundtrip_witness :
    ((cacheSet (fun p m => m ++ ":" ++ p) false 0 "p" "r" "m" none none
        initialData).1.success = true ∧
      ∃ g, (cacheGet (fun p m => m ++ ":" ++ p) 0 "p" "m"
          (cacheSet (fun p m => m ++ ":" ++ p) false 0 "p" "r" "m" none none
            initialData).2).1 = some g ∧
        g.response = "r") ∧
    ∃ e, JSONStorage.get
          (cacheSet (fun p m => m ++ ":" ++ p) false 0 "p" "r" "m" none none
            initialData).2 ("m" ++ ":" ++ "p") = some e ∧
      JSONStorage.get (cacheGet (fun p m => m ++ ":" ++ p) 0 "p" "m"
            (cacheSet (fun p m => m ++ ":" ++ p) false 0 "p" "r" "m" none none
              initialData).2).2 ("m" ++ ":" ++ "p") =
        some { e with hits := e.hits + 1 } ∧
      ({ response := "r", model := "m", hits := 1, created := 0,
         tokens := 1 } : CacheGetResult).hits = e.hits + 1 ∧
      ({ response := "r", model := "m", hits := 1, created := 0,
         tokens := 1 } : CacheGetResult).response = e.response :=
  ⟨cacheSetGet_roundtrip.1 (fun p m => m ++ ":" ++ p) 0 0 "p" "r" "m" none none
      initialData (by decide) (by decide),
   cacheSetGet_roundtrip.2 (fun p m => m ++ ":" ++ p) 0 "p" "m"
      (cacheSet (fun p m => m ++ ":" ++ p) false 0 "p" "r" "m" none none initialData).2
      ⟨"r", "m", 1, 0, 1⟩ (by decide)⟩

/-- A free-tier store at the 50-entry ceiling (only the counter matters to the
limit check). -/
def free50State : JState :=
  { entries := [], stats := { totalEntries := 50, totalHits := 0, totalSaved := 0, costSaved := [] } }

/-- A free-tier store one below the ceiling. -/
def free49State : JState :=
  { entries := [], stats := { totalEntries := 49, totalHits := 0, totalSaved := 0, costSaved := [] } }

/-- C4. Under the FREE tier: with `totalEntries = 50`, the next `set` reports
`limitExceeded = true`, does not succeed, and leaves the backend state
untouched; with `totalEntries = 49`, a `set` of a new (prompt, model) pair
(its hash absent) within the response-size limit succeeds as a new insert,
bringing the counter to 50. -/
theorem cacheSet_freeLimits :
    (∀ (hp : String → String → String) (now : Int) (prompt response model : String)
        (tokensOpt ttlMs : Option Int) (st : JState),
      st.stats.totalEntries = 50 →
      (cacheSet hp false now prompt response model tokensOpt ttlMs st).1.limitExceeded = true ∧
      (cacheSet hp false now prompt response model tokensOpt ttlMs st).1.success = false ∧
      (cacheSet hp false now prompt response model tokensOpt ttlMs st).2 = st) ∧
    (∀ (hp : String → String → String) (now : Int) (prompt response model : String)
        (tokensOpt ttlMs : Option Int) (st : JState),
      st.stats.totalEntries = 49 →
      (response.utf8ByteSize : Int) ≤ FREE_LIMITS_maxResponseSize →
      lookupEntry st.entries (hp prompt model) = none →
      (cacheSet hp false now prompt response model tokensOpt ttlMs st).1.success = true ∧
      (cacheSet hp false now prompt response model tokensOpt ttlMs st).1.limitExceeded = false ∧
      (cacheSet hp false now prompt response model tokensOpt ttlMs st).1.isNew = true ∧
      (cacheSet hp false now prompt response model tokensOpt ttlMs st).2.stats.totalEntries = 50) := by
  constructor
  · intro hp now prompt response model tokensOpt ttlMs st h50
    have h1 : canAddEntry false (50 : Int) = false := by decide
    refine ⟨?_, ?_, ?_⟩ <;> simp [cacheSet, h50, h1]
  · intro hp now prompt response model tokensOpt ttlMs st h49 hsize habs
    have h1 : canAddEntry false (49 : Int) = true := by decide
    have h2 : checkResponseSize false (response.utf8ByteSize : Int) = true := by
      simp [checkResponseSize, not_lt.mpr hsize]
    refine ⟨?_, ?_, ?_, ?_⟩ <;>
      cases ttlMs <;>
        simp [cacheSet, h49, h1, h2, JSONStorage.set, habs]

/-- Witness for `cacheSet_freeLimits` at the two concrete stores: at 50
entries the set is refused with `limitExceeded`, at 49 it succeeds. -/
theorem cacheSet_freeLimits_witness :
    (cacheSet (fun p m => m ++ ":" ++ p) false 0 "p" "r" "m" none none
        free50State).1.limitExceeded = true ∧
    (cacheSet (fun p m => m ++ ":" ++ p) false 0 "p" "r" "m" none none
        free49State).1.success = true :=
  ⟨(cacheSet_freeLimits.1 (fun p m => m ++ ":" ++ p) 0 "p" "r" "m" none none
      free50State (by decide)).1,
   (cacheSet_freeLimits.2 (fun p m => m ++ ":" ++ p) 0 "p" "r" "m" none none
      free49State (by decide) (by decide) (by decide)).1⟩

end LLMCache
